import Mathlib

/-!
Verification of the MEP proposal generator (`src/app.py`).

The Python program is a single linear pipeline: a form collects widget
values, a validation block computes the missing required fields, the
generate handler builds a `form_data` dictionary, `create_proposal_document`
assembles a fixed word-processing document (paragraphs and tables) from it,
and the result is offered as a download with a computed filename.

The shallow embedding below mirrors that source.  Paragraphs and tables are
modelled by the `Block` type (a paragraph keeps its visible text together
with whether its runs are bold and underlined, which is how the source
distinguishes task headings from body text); currency inputs are modelled by
`FeeStr`, a raw string paired with the result of Python's
`float(value.replace(',','').replace('$',''))` on it (`none` when that call
raises `ValueError`); Python floats are idealised as rationals, and the
`f"{x:,.0f}"` rendering is modelled by banker's rounding (`pyRound`)
followed by comma grouping (`natComma` / `pyFormatComma`).
-/

/-- Models a currency form value: the raw string together with the result of
Python `float` applied to the string after removing every `,` and `$`
(`none` when `float` raises `ValueError`).  Floats are idealised as `ℚ`. -/
structure FeeStr where
  text : String
  parsed : Option ℚ
deriving DecidableEq, Repr

/-- Models Python `value.replace(',', '').replace('$', '')`: removing every
comma and dollar sign from the string. -/
def stripDollarComma (s : String) : String :=
  ⟨s.data.filter (fun c => decide (c ≠ ',') && decide (c ≠ '$'))⟩

/-- Models Python `s or default` on strings: the default when `s` is empty. -/
def pyOr (s dflt : String) : String := if s = "" then dflt else s

/-- Models Python round-half-to-even as used by the `f"{x:,.0f}"` format
specifier, on the idealised rational value.  `f` is the floor of `q` and
`rnum / q.den` its fractional part, so comparing `2 * rnum` with `q.den`
compares the fractional part with one half. -/
def pyRound (q : ℚ) : ℤ :=
  let f : ℤ := Int.fdiv q.num q.den
  let rnum : ℤ := q.num - f * q.den
  if 2 * rnum < (q.den : ℤ) then f
  else if (q.den : ℤ) < 2 * rnum then f + 1
  else if f % 2 = 0 then f else f + 1

/-- Inserts a comma after every three characters of the (reversed) digit
list; the fuel argument is an upper bound on the length, consumed one group
per step. -/
def commaChunksRev : Nat → List Char → List Char
  | 0, l => l
  | fuel + 1, l =>
    if l.length ≤ 3 then l
    else l.take 3 ++ ',' :: commaChunksRev fuel (l.drop 3)

/-- Decimal rendering of a natural number with thousands separators, as
produced by Python `f"{n:,.0f}"` for non-negative integral values. -/
def natComma (n : Nat) : String :=
  ⟨(commaChunksRev (toString n).data.length (toString n).data.reverse).reverse⟩

/-- Decimal rendering of an integer with thousands separators (Python
`f"{z:,}"` / `f"{z:,.0f}"` for integral values). -/
def pyFormatComma (z : ℤ) : String :=
  if z < 0 then "-" ++ natComma z.natAbs else natComma z.natAbs

/-- Models `format_currency` (src/app.py:95-101): parse the value after
stripping `,` and `$`, render it as `f"{num:,.0f}"`, and return the input
unchanged when parsing fails.  The `parsed` component of the result is the
`float` value of the re-rendered string, which is the rounded integer. -/
def format_currency (f : FeeStr) : FeeStr :=
  match f.parsed with
  | some q => { text := pyFormatComma (pyRound q), parsed := some ((pyRound q : ℤ) : ℚ) }
  | none => f

/-- Models the `form_data` dictionary built by the generate handler
(src/app.py:1362-1450).  Every key of that dictionary is a field here, so
the `data.get(key, default)` defaults inside `create_proposal_document` are
dead (the handler always supplies every key); `data[key]` accesses cannot
raise `KeyError`.  Checkbox-derived values are `Bool`, text-widget values
are `String`, and the six fee entries are `FeeStr` (their raw text plus its
parse, see `FeeStr`). -/
structure FormData where
  date : String
  client_title : String
  client_contact : String
  company_name : String
  address1 : String
  address2 : String
  project_name : String
  project_address : String
  project_city : String
  project_state : String
  is_new_building : Bool
  is_renovation : Bool
  building_stories : String
  total_area : String
  construction_phases : String
  separate_buildings : Bool
  core_and_shell : Bool
  leed_rating : String
  construction_budget : String
  unit_types : String
  typical_floors : String
  retail_core_shell : Bool
  retail_electrical : Bool
  retail_plumbing : Bool
  retail_food_beverage : Bool
  retail_mechanical : Bool
  hvac_system : String
  hvac_residential_highrise : Bool
  hvac_existing_reuse : Bool
  outside_air_unit : Bool
  exhaust_system : String
  parking_garage : String
  smoke_control : Bool
  elevator_hoistway : Bool
  water_service : String
  roof_drainage : String
  roof_storm_drain : Bool
  parking_garage_drain : Bool
  water_oil_separator : Bool
  sump_pump : Bool
  booster_pump : Bool
  sanitary_vent : Bool
  grease_waste : Bool
  natural_gas : Bool
  fuel_delivery : Bool
  civil_coordination : Bool
  existing_electrical_renovation : Bool
  power_receptacles : Bool
  core_shell_electrical : Bool
  lighting_coordination : Bool
  lightning_protection : String
  emergency_generator : String
  ev_charging : String
  ev_ready_spaces : String
  ev_capable_spaces : String
  fire_alarm : Bool
  technology_design : Bool
  fire_pump : String
  weekly_meetings : Bool
  revit_lod : String
  revit_coordination_hours : String
  sd_existing_survey : Bool
  sd_site_visit_hours : String
  sd_weeks : String
  sd_meeting_hours : String
  sd_total_meetings : String
  dd_weeks : String
  dd_meeting_hours : String
  dd_total_meetings : String
  dd_rounds : String
  cd_weeks : String
  cd_meeting_hours : String
  cd_total_meetings : String
  cd_percentages : String
  site_visits : String
  include_record_drawings : Bool
  record_drawings_hours : String
  fee_sd : FeeStr
  fee_dd : FeeStr
  fee_cd : FeeStr
  fee_bidding : FeeStr
  fee_construction : FeeStr
  fee_record_drawings : FeeStr
  invoice_email : String
  invoice_copy : String
  project_manager : String
  senior_vp : String

/-- Models `calculate_total` (src/app.py:352-368): the contribution of one
fee entry to the running total.  Python evaluates
`float(str(fee).replace(',', '').replace('$', '') or 0)` inside
`try/except`: an empty stripped string falls back to `float(0)`, a parse
failure is swallowed (`pass`) and contributes nothing. -/
def feeContribution (f : FeeStr) : ℚ :=
  if stripDollarComma f.text = "" then 0 else f.parsed.getD 0

/-- Models the `fees` list assembled by `calculate_total`
(src/app.py:354-359): the five base task fees, plus record drawings when
`include_record_drawings` is set. -/
def calcFeeList (d : FormData) : List FeeStr :=
  [d.fee_sd, d.fee_dd, d.fee_cd, d.fee_bidding, d.fee_construction]
    ++ (if d.include_record_drawings then [d.fee_record_drawings] else [])

/-- The numeric total accumulated by `calculate_total` (src/app.py:361-366). -/
def totalFee (d : FormData) : ℚ :=
  ((calcFeeList d).map feeContribution).sum

/-- Models `calculate_total`'s return value (src/app.py:368):
`f"{total:,.0f}" if total > 0 else "___________"`. -/
def calculate_total (d : FormData) : String :=
  if 0 < totalFee d then pyFormatComma (pyRound (totalFee d)) else "___________"

/-- Models the `fee_data` list (src/app.py:866-875): task label, fee text
and fee type for each row of the fee table. -/
def fee_data (d : FormData) : List (String × String × String) :=
  [("110 Schematic Design Phase", d.fee_sd.text, "Lump Sum"),
   ("120 Design Development", d.fee_dd.text, "Lump Sum"),
   ("130 Construction Documents", d.fee_cd.text, "Lump Sum"),
   ("140 Bidding and Negotiations", d.fee_bidding.text, "Lump Sum"),
   ("150 Limited Construction Phase Services", d.fee_construction.text, "Lump Sum")]
    ++ (if d.include_record_drawings then
          [("160 Record Drawings", d.fee_record_drawings.text, "Lump Sum")]
        else [])

/-- The cell texts of the fee table (src/app.py:843-899).  The source
allocates `num_rows = 7` (or `8` with record drawings) and fills row 0 with
the header, rows `1..len(fee_data)` with `fee_data` (each fee rendered as
`f"${fee}"`), and row `num_rows - 1` with the total row
(`f"${calculate_total(data)}"`); since `len(fee_data)` is 5 (or 6), that
fills every row exactly once, giving header, data rows, then total. -/
def feeTableRows (d : FormData) : List (List String) :=
  ["Task Number and Name", "Fee", "Type"]
    :: (fee_data d).map (fun x => [x.1, "$" ++ x.2.1, x.2.2])
    ++ [["Total", "$" ++ calculate_total d, ""]]

/-- A body element emitted by `create_proposal_document`: a paragraph (its
visible text, concatenating its runs, together with whether the runs are
bold and whether they are underlined), a table (its cell texts, row by
row), or an explicit page break.  Header/footer content lives in the
section header and footer, not in the body, and is not modelled. -/
inductive Block where
  | par (text : String) (bold underline : Bool)
  | table (rows : List (List String))
  | pageBreak
deriving DecidableEq, Repr

/-- Models `add_paragraph` (src/app.py:304-315): a plain paragraph. -/
def addParagraph (t : String) : Block := .par t false false

/-- Models `doc.add_paragraph()` with no text: a blank spacer paragraph. -/
def blankPar : Block := .par "" false false

/-- Models `add_bullet` (src/app.py:318-325): a List Bullet paragraph (the
bullet glyph comes from the style, not the text). -/
def addBullet (t : String) : Block := .par t false false

/-- Models `add_sub_bullet` (src/app.py:328-340): the run text is
`"○  " + text`. -/
def addSubBullet (t : String) : Block := .par ("○  " ++ t) false false

/-- Models `add_sub_sub_bullet` (src/app.py:343-349): the run text is
`"▪  " + text`. -/
def addSubSubBullet (t : String) : Block := .par ("▪  " ++ t) false false

/-- Models `add_section_header` (src/app.py:292-301): a single run with
`bold = True` and `underline = True`. -/
def sectionHeader (t : String) : Block := .par t true true

/-- Models the task-heading pattern (e.g. src/app.py:646-650): a paragraph
whose single run has `bold = True` and no underline. -/
def boldPar (t : String) : Block := .par t true false

/-- Models Python `contact.split()`: split on whitespace runs, dropping
empty pieces, via an accumulator over the character list. -/
def wsTokensAux (cur : List Char) : List Char → List (List Char)
  | [] => if cur.isEmpty then [] else [cur.reverse]
  | c :: cs =>
    if c.isWhitespace then
      if cur.isEmpty then wsTokensAux [] cs else cur.reverse :: wsTokensAux [] cs
    else wsTokensAux (c :: cur) cs

/-- Models Python `s.split()` (no separator argument). -/
def pySplitWs (s : String) : List String :=
  (wsTokensAux [] s.data).map (fun l => ⟨l⟩)

/-- Models src/app.py:418:
`last_name = data['client_contact'].split()[-1] if data['client_contact'] else "XXX"`.
An empty contact is falsy and yields the placeholder; otherwise `[-1]` on
the token list raises `IndexError` when the contact is whitespace-only. -/
def lastNameOf (contact : String) : Except String String :=
  if contact = "" then .ok "XXX"
  else
    match (pySplitWs contact).getLast? with
    | some t => .ok t
    | none => .error "IndexError: list index out of range"

/-- The opening paragraph (src/app.py:423). -/
def openingText (d : FormData) : String :=
  "Kimley-Horn and Associates, Inc. (\"Kimley-Horn\" or \"Consultant\") is pleased to submit this Letter Agreement (the \"Agreement\") to "
    ++ pyOr d.company_name "___________"
    ++ " (\"Client\") for providing mechanical, electrical, plumbing, and fire protection consulting engineering services for the proposed "
    ++ pyOr d.project_name "XX" ++ " development located on "
    ++ pyOr d.project_address "XXX Avenue" ++ " in "
    ++ pyOr d.project_city "XXX" ++ ", " ++ pyOr d.project_state "XX"
    ++ " (\"Project\")."

/-- Date, recipient, Re: block, salutation and opening paragraph
(src/app.py:392-425).  `last_name` is the already-computed value of
src/app.py:418. -/
def introBlocks (d : FormData) (last_name : String) : List Block :=
  [addParagraph d.date,
   blankPar,
   addParagraph (d.client_title ++ " " ++ d.client_contact),
   addParagraph d.company_name]
  ++ (if d.address1 ≠ "" then [addParagraph d.address1] else [])
  ++ (if d.address2 ≠ "" then [addParagraph d.address2] else [])
  ++ [blankPar,
      addParagraph "Re:\tLetter Agreement for Professional Services for",
      addParagraph d.project_name,
      addParagraph (d.project_address ++ ", " ++ d.project_city ++ ", " ++ d.project_state),
      blankPar,
      addParagraph ("Dear " ++ d.client_title ++ " " ++ last_name ++ ":"),
      blankPar,
      addParagraph (openingText d),
      blankPar]

/-- Models the `hvac_descriptions` dictionary lookup with default `''`
(src/app.py:487-497). -/
def hvac_descriptions (k : String) : String :=
  if k = "Centralized Chilled Water" then
    "The system will be designed as a centralized chilled water system with individual air handler per floor."
  else if k = "Condenser Water" then
    "The systems will be designed as a condenser water system with centralized cooling tower and compressor driven air handlers per floor."
  else if k = "Rooftop Units with VAV" then
    "The systems will be designed as central roof top units located on the roof and ducted down to the associated spaces with Variable Air Volume Units provided on each floor."
  else if k = "Rooftop Units without VAV" then
    "The systems will be designed as central roof top units located on the roof and ducted down to the associated spaces without Variable Air Volume Units."
  else if k = "VRF" then
    "The systems will be designed as Variable Refrigerant Flow units with heat recovery units located throughout the space."
  else if k = "Split DX" then
    "The system will be designed as a split DX system with indoor air handlers located throughout the building."
  else ""

/-- Models the `exhaust_descriptions` dictionary lookup with default `''`
(src/app.py:508-515). -/
def exhaust_descriptions (k : String) : String :=
  if k = "Dedicated Roof Fan" then
    "Exhaust will be provided as a dedicated exhaust fan located on the roof."
  else if k = "Individual Fans" then
    "Exhaust will be provided as individual exhaust fans discharging out of the side through louvers."
  else if k = "Through OA Unit" then
    "Exhaust systems will be collected and routed back through the dedicated outside air unit."
  else ""

/-- The checkbox-driven assumption bullets (src/app.py:434-463). -/
def assumptionListBlocks (d : FormData) : List Block :=
  (if d.is_new_building then
        [addBullet (pyOr d.company_name "Client" ++ " will be building a new building located at "
          ++ pyOr d.project_address "XXX" ++ ", " ++ pyOr d.project_state "XX" ++ ".")]
      else [])
  ++ (if d.is_renovation then
        [addBullet ("The project will be a renovation to an existing tenant space located at "
          ++ pyOr d.project_address "XXX" ++ ".")]
      else [])
  ++ (if d.building_stories ≠ "" then
        [addBullet ("The " ++ pyOr d.project_name "XXX" ++ " building is estimated to be roughly "
          ++ d.building_stories ++ " stories with a total area of " ++ d.total_area ++ " sf.")]
      else [])
  ++ (if d.construction_phases ≠ "" then
        [addBullet ("The project will be constructed in " ++ d.construction_phases
          ++ " phases of design, permitting and construction.")]
      else [])
  ++ (if d.separate_buildings then
        [addBullet "The office and the parking garage will be two separate buildings connected by ground floor retail and common outdoor spaces."]
      else [])
  ++ (if d.core_and_shell then
        [addBullet ("The " ++ pyOr d.project_name "XXX" ++ " building will be provided as a core and shell building.")]
      else [])
  ++ (if d.leed_rating ≠ "" ∧ d.leed_rating ≠ "Not Applicable" then
        [addBullet ("The Project will be designed to " ++ d.leed_rating
          ++ ". Kimley-Horn will work with the LEED consultant on their assigned credits and provide the required calculations and documentation needed throughout the design phase.")]
      else [])
  ++ (if d.construction_budget ≠ "" then
        [addBullet ("Kimley-Horn understands that the project is based on a $" ++ d.construction_budget
          ++ " estimated construction budget.")]
      else [])
  ++ (if d.unit_types ≠ "" then
        [addBullet ("Kimley-Horn will provide MEP design scope of services below for up to "
          ++ d.unit_types ++ " unit types.")]
      else [])
  ++ (if d.typical_floors ≠ "" then
        [addBullet ("Kimley-Horn will provide MEP design scope of services below for up to "
          ++ d.typical_floors ++ " typical floors.")]
      else [])

/-- The Retail Core & Shell sub-section (src/app.py:466-481). -/
def retailBlocks (d : FormData) : List Block :=
  (if d.retail_core_shell then
        [blankPar,
         addBullet "All retail will be provided as core and shell. All retail core and shell spaces will be designed based on the following understanding:"]
        ++ (if d.retail_electrical then
              [addSubBullet "Electrical systems will be designed as a meter center and empty conduits as needed for future tenant connection.",
               addSubSubBullet "Design and engineering of tenant panel and transformers for tenant are not included in this scope of services."]
            else [])
        ++ (if d.retail_plumbing then
              [addSubBullet "Plumbing systems will be provided with sanitary, vent, water, grease waste and gas stub-ins to the space and capped for future tenant connection. No plumbing connections and distribution piping will be designed for tenant spaces as part of this scope of services."]
            else [])
        ++ (if d.retail_food_beverage then
              [addSubBullet "Retail spaces are to be food and beverage retail with cooking within the retail space. Occupancy loads provided by the Client or Client's architect and / or owner will be the basis for grease trap sizing."]
            else [])
        ++ (if d.retail_mechanical then
              [addSubBullet "Mechanical systems will be provided as condenser water systems with piping stub-ins for future tenant provided water source heat pumps."]
            else [])
      else [])

/-- The HVAC design basis (src/app.py:483-526). -/
def hvacBlocks (d : FormData) : List Block :=
  [blankPar, addBullet "The HVAC design shall be based on the following:"]
  ++ (if d.hvac_system ≠ "" then [addSubBullet (hvac_descriptions d.hvac_system)] else [])
  ++ (if d.hvac_residential_highrise then
        [addSubBullet "Kimley-Horn will work with the Client's architect and Client to select the mechanical system during the conceptual and schematic design phase. Variable refrigerant flow, DX, and condenser water systems will be evaluated for this project."]
      else [])
  ++ (if d.hvac_existing_reuse then
        [addSubBullet "The existing mechanical system will be reused in its current condition. Ductwork will be demolished back to the existing unit and replaced with all new ductwork and air distribution to accommodate the new architectural layout."]
      else [])
  ++ (if d.outside_air_unit then
        [addSubBullet "Outside air will be provided by a dedicated 100% outside air unit located on the roof serving each of the units and the corridors."]
      else [])
  ++ (if d.exhaust_system ≠ "" then [addSubBullet (exhaust_descriptions d.exhaust_system)] else [])
  ++ (if d.parking_garage = "Open-Air" then
        [addSubBullet "The Parking garage will be designed as an open-air parking garage with no mechanical ventilation to be provided."]
      else if d.parking_garage = "Enclosed" then
        [addSubBullet "The Parking garage will be designed as an enclosed parking garage with mechanical ventilation."]
      else [])
  ++ (if d.smoke_control then
        [addSubBullet "Smoke control system design is included in the below scope of work and will be designed per the rational analysis as provided from the life safety consultant."]
      else [])
  ++ (if d.elevator_hoistway then
        [addSubBullet "Elevator hoist ways are enclosed lobbies and no hoist way pressurization will be designed."]
      else [])

/-- The plumbing design basis (src/app.py:528-570). -/
def plumbingBlocks (d : FormData) : List Block :=
  [blankPar, addBullet "The plumbing design shall be based on the following:"]
  ++ (if d.water_service = "Single Meter" then
        [addSubBullet "Domestic water design is included and for the purposes of this letter agreement is assumed that domestic water service will be provided as a single meter to the building from the public water main."]
      else if d.water_service = "Multiple Meters" then
        [addSubBullet "Domestic water design is included and for the purposes of this letter agreement is assumed that domestic water service will be provided to the building as multiple meters for each space from the public water main."]
      else [])
  ++ (if d.roof_storm_drain then
        [addSubBullet "All roof storm drain fixture locations and roof sloping layouts shall be provided by the Client's architect."]
      else [])
  ++ (if d.parking_garage_drain then
        [addSubBullet "All parking garage drain fixture locations and roof sloping layouts shall be provided by the Client's architect."]
      else [])
  ++ (if d.water_oil_separator then
        [addSubBullet "The plumbing system for parking garage will include the design of a water oil separator system."]
      else [])
  ++ (if d.sump_pump then
        [addSubBullet "Below grade parking includes the design of sump pump systems for drainage of the parking system."]
      else [])
  ++ (if d.booster_pump then
        [addSubBullet "The domestic water system will be designed to include a booster pump system."]
      else [])
  ++ (if d.sanitary_vent then
        [addSubBullet "Sanitary and vent system design is included in this scope of services."]
      else [])
  ++ (if d.grease_waste then
        [addSubBullet "Grease waste system will be designed for cooking and restaurant spaces."]
      else [])
  ++ (if d.natural_gas then
        [addSubBullet "Coordinate and design of the natural gas system to be used for domestic hot water heating or cooking."]
      else [])
  ++ (if d.fuel_delivery then
        [addSubBullet "Coordinate and design of the fuel delivery system to be used for emergency power."]
      else [])
  ++ (if d.roof_drainage = "Internal Drains" then
        [addSubBullet "Roof drainage system will be designed as internal roof drains with secondary overflows."]
      else if d.roof_drainage = "Gutters/Downspouts" then
        [addSubBullet "Roof drainage system will be designed as gutter and downspouts exterior to the building."]
      else [])
  ++ (if d.civil_coordination then
        [addSubBullet "Coordination with the civil engineer is anticipated in the scope of services."]
      else [])

/-- The electrical design basis (src/app.py:572-609). -/
def electricalBlocks (d : FormData) : List Block :=
  [blankPar, addBullet "The electrical design shall be based on the following:"]
  ++ (if d.existing_electrical_renovation then
        [addBullet "The existing electrical system is being renovated and anticipated to exceed the loads currently in the space and therefore a 30-day load study, provided by the Client, will be required prior to issuing final construction documents."]
      else [])
  ++ (if d.power_receptacles then
        [addBullet "Power receptacle layout and design is included in this scope of services."]
      else [])
  ++ (if d.core_shell_electrical then
        [addBullet "Power receptacle layout and design consists of the front and back of house areas described above. All core and shell areas shall be provided with only the anticipated panel sizing and conduits for future tenants to route power through."]
      else [])
  ++ (if d.lighting_coordination then
        [addBullet "Lighting design for all front of house areas will be coordinated with the Client's architect and / or their lighting designer. The Client's lighting designer shall provide Kimley-Horn with all front of house lighting fixture layouts, schedules, control diagrams and switching layouts, along with CAD plans showing lighting photometrics to be included in the electrical engineering plans for building permit."]
      else [])
  ++ (if d.lightning_protection = "Included" then
        [addBullet "Building lightning protection design is included as a performance-based design."]
      else
        [addBullet "Building lightning protection design is excluded in this scope of work."])
  ++ (if d.emergency_generator = "Included" then
        [addBullet "Emergency generator design is included for code required life safety systems only."]
      else
        [addBullet "Emergency generator design is excluded from this scope of services."])
  ++ (if d.ev_charging = "Included" then
        [addBullet ("Electrical vehicle charging design is included for up to " ++ d.ev_ready_spaces
           ++ " electrical vehicle ready spaces, and " ++ d.ev_capable_spaces
           ++ " electrical vehicle capable spaces."),
         addSubBullet "EV Ready spaces are provided with dedicated EV charging equipment, feeders, and raceways.",
         addSubBullet "EV Capable spaces are provided with future capacity in electrical switchgear and spare conduits routed from the electrical room to five feet outside the building."]
      else
        [addBullet "Electrical vehicle charging design is excluded from this scope of work."])
  ++ (if d.fire_alarm then
        [addBullet "Fire Alarm design to consist of schematic plans and \"preliminary based design\" (FAC 61G15) specifications. Detailed fire sprinkler drawings shall be provided by the Client's sprinkler contractor."]
      else [])
  ++ (if d.technology_design then
        [addBullet "Technology design services provided in the MEP design scope of services below will have the design for the pathway and backboxes only."]
      else [])

/-- The fire-protection basis, weekly meetings and Revit paragraphs
(src/app.py:611-639). -/
def fireRevitBlocks (d : FormData) : List Block :=
  [blankPar,
      addBullet "The Fire protection design shall be based on the following:",
      addSubBullet "Fire protection design to consist of schematic plans and \"performance-based\" (FAC 61G15) specifications. Detailed fire sprinkler drawings shall be provided by the Client's fire sprinkler contractor.",
      addSubBullet "The Client's fire sprinkler contractor shall be responsible for fire sprinkler permit documents."]
  ++ (if d.fire_pump = "Included" then
        [addSubBullet "The design of a fire pump is included in the scope of services."]
      else
        [addSubBullet "The design of a fire pump is not included in this scope of services."])
  ++ (if d.weekly_meetings then
        [blankPar,
         addBullet "For budgeting purposes, Kimley-Horn assumes that weekly meetings will occur throughout each design phase task provided below beginning with the kickoff meeting and in accordance with the duration of each design phase task outlined below in the scope of services. Should the design schedule be extended beyond its initially established timeframe, attendance at any additional meetings may be considered an additional service and subject to additional charges."]
      else [])
  ++ [blankPar,
      addBullet ("Revit: Kimley-Horn utilizes Revit as the basis for Kimley-Horn's design software. Kimley-Horn's Revit model will be prepared to a Level of Development (LOD) "
        ++ d.revit_lod ++ " standard which will consist of the following:"),
      addSubBullet "Model elements represented for all ductwork, piping, conduits (6\" or greater), duct banks, panel boards, mechanical and plumbing equipment, fire protection equipment. Refrigerant piping will be modeled for the intent of routing purposes only.",
      addSubBullet "Interdisciplinary coordination with MEPFP systems in the building to address major coordination items such as chases, above ceiling heights, coordination with structural members and foundations. Though major coordination will be done, the model will not be clash free. Any elements under 6\" in diameter or depth will be modeled for design intent only and will be left up to the Client's contractor for all final coordination.",
      addSubBullet "All lighting and plumbing fixtures will be placed and controlled by the Client's architect in their model and referenced and modeled in the Kimley-Horn Revit model."]
  ++ (if d.revit_coordination_hours ≠ "" then
        [addSubBullet ("Meeting with Client's architect and Client's other subconsultants will be for coordination only (Kimley-Horn will attend up to "
           ++ d.revit_coordination_hours
           ++ " hrs for meetings). Clash detection meetings are not part of this scope of services and can be provided as an additional service.")]
      else [])

/-- The Project Understanding and Assumptions section (src/app.py:427-639):
section header and intro, then the assumption bullets, retail, HVAC,
plumbing, electrical and fire/Revit sub-sections in source order. -/
def assumptionBlocks (d : FormData) : List Block :=
  [sectionHeader "Project Understanding and Assumptions",
   addParagraph "Kimley-Horn's scope and fee are based on the following project understanding and assumptions. If any of these assumptions are not correct, then the scope and fee provided below may change:",
   blankPar]
  ++ assumptionListBlocks d
  ++ retailBlocks d
  ++ hvacBlocks d
  ++ plumbingBlocks d
  ++ electricalBlocks d
  ++ fireRevitBlocks d

/-- Task 110 – Schematic Design (src/app.py:645-674). -/
def task110Blocks (d : FormData) : List Block :=
  [boldPar "Task 110 – Schematic Design",
   blankPar,
   addBullet "Attend one (1) Client and / or architect kickoff meeting for project initiation."]
  ++ (if d.sd_existing_survey then
        [addBullet "Attend one (1) existing building site survey for review of existing building systems.",
         addBullet "Prepare site visit observation report outlining field observations and meeting notes from the existing building site survey."]
        ++ (if d.sd_site_visit_hours ≠ "" then
              [addBullet ("Kimley-Horn will attend a site visit to observe the existing conditions of the mechanical and electrical systems serving the "
                 ++ pyOr d.project_name "XXX"
                 ++ ". The site visit will include up to two Kimley-Horn representatives for up to "
                 ++ d.sd_site_visit_hours ++ " hours on site, plus travel time.")]
            else [])
      else [])
  ++ [addBullet ("Schematic Design phase is anticipated to last up to " ++ d.sd_weeks ++ " weeks.")]
  ++ (if d.sd_meeting_hours ≠ "" then
        [addBullet ("Kimley-Horn will attend up to one (1) weekly coordination meeting per week, for up to "
           ++ d.sd_meeting_hours
           ++ " hours, as requested by the Client for the duration of the Schematic Design phase.")]
        ++ (if d.sd_total_meetings ≠ "" then
              [addSubBullet ("For the purposes of this letter agreement, Kimley-Horn assumes there will be "
                 ++ d.sd_total_meetings ++ " total weekly design meetings for this task.")]
            else [])
      else [])
  ++ [addBullet "Prepare preliminary load estimates for coordination of MEP equipment for space requirements.",
      addBullet "Coordinate locations of incoming services to buildings with the civil engineer.",
      addBullet "Coordinate the approximate location of the existing utility infrastructure.",
      addBullet "Coordinate the availability and requirements of storm, water, sewer, and reclaim water for points of connection and discharge with the civil engineer.",
      addBullet "Prepare preliminary sanitary sizing for civil engineering coordination and connection.",
      addBullet "Prepare Schematic Design narratives describing the proposed MEP/FP systems.",
      addBullet "Respond to up to two (2) rounds of schematic design narrative comments from Client."]

/-- Task 120 – Design Development (src/app.py:676-698). -/
def task120Blocks (d : FormData) : List Block :=
  [blankPar,
   boldPar "Task 120 – Design Development",
   blankPar,
   addBullet "Upon written approval of the Schematic Design narrative by the Client, Kimley-Horn will proceed into the Design Development phase."]
  ++ (if d.dd_weeks ≠ "" then
        [addBullet ("Kimley-Horn anticipates the Design Development phase is anticipated to last up to "
           ++ d.dd_weeks ++ " weeks.")]
      else [])
  ++ (if d.dd_meeting_hours ≠ "" then
        [addBullet ("Kimley-Horn will attend up to one (1) weekly coordination meeting per week, for up to "
           ++ d.dd_meeting_hours
           ++ " hours, as requested by the Client for the duration of the Design Development phase.")]
        ++ (if d.dd_total_meetings ≠ "" then
              [addSubBullet ("For the purposes of this letter agreement, Kimley-Horn assumes there will be "
                 ++ d.dd_total_meetings ++ " total weekly design meetings for this task.")]
            else [])
      else [])
  ++ [addBullet "Kimley-Horn will provide update design calculations, equipment selections, and fixture selections.",
      addBullet "The Revit model will be updated to show major system equipment locations, routing, and coordinate with Client's architect and their sub consultants.",
      addBullet "Prepare and deliver Design Development drawings in PDF format.",
      addBullet ("Respond to up to " ++ d.dd_rounds ++ " rounds of owner Design Development (DD) review comments.")]

/-- Task 130 – Construction Documents (src/app.py:700-727). -/
def task130Blocks (d : FormData) : List Block :=
  [blankPar,
   boldPar "Task 130 – Construction Documents",
   blankPar,
   addBullet "Upon written approval of the Design Development deliverables by the Client, Kimley-Horn will proceed into the Construction Document phase."]
  ++ (if d.cd_weeks ≠ "" then
        [addBullet ("Kimley-Horn anticipates the Construction Document phase to last up to "
           ++ d.cd_weeks ++ " weeks.")]
      else [])
  ++ (if d.cd_meeting_hours ≠ "" then
        [addBullet ("Kimley-Horn will attend up to one (1) weekly coordination meeting per week, for up to "
           ++ d.cd_meeting_hours
           ++ " hours, as requested by the Client for the duration of the Construction Document phase.")]
        ++ (if d.cd_total_meetings ≠ "" then
              [addSubBullet ("For the purposes of this letter agreement, Kimley-Horn assumes there will be "
                 ++ d.cd_total_meetings ++ " total weekly design meetings for this task.")]
            else [])
      else [])
  ++ [addBullet "Finalized equipment, calculations, and fixture selections.",
      addBullet ("Prepare one (1) Construction Document progress drawing PDF submittal at approximately "
        ++ d.cd_percentages ++ " CDs."),
      addBullet "Kimley-Horn will respond to up to two (2) rounds of comments, from the Client, for each submittal.",
      addBullet "Kimley-Horn will respond to up to two (2) rounds of 90% Construction Documents review comments.",
      addBullet "Provide and submit response narrative addressing permit comments provided by the AHJ and permit reviewers.",
      addBullet "Coordinate with the Client's architect and Client's other consultants addressing permit comments.",
      addBullet "Prepare final Construction Documents and specifications for bidding and final submission to the building department.",
      addBullet "Specifications will be prepared as standard book specs or sheet specs.",
      addBullet "Submit stamped and signed PDF drawings and specifications for building permit application and final building permit coordination. All municipal permit coordination is to be handled by the Client's project architect."]

/-- Task 140 – Bidding and Negotiations (src/app.py:729-739). -/
def task140Blocks : List Block :=
  [blankPar,
   boldPar "Task 140 – Bidding and Negotiations",
   blankPar,
   addBullet "Kimley-Horn will attend up to one (1) pre-bid meeting with potential bidders online or in person as requested by the Client.",
   addBullet "Consultant will review up to two (2) rounds of sub-contractor bids and provide written feedback to Client on received bids."]

/-- Task 150 – Limited Construction Phase Services (src/app.py:741-758). -/
def task150Blocks (d : FormData) : List Block :=
  [blankPar,
   boldPar "Task 150 – Limited Construction Phase Services",
   blankPar]
  ++ (if d.site_visits ≠ "" then
        [addBullet ("Site Visits and Construction Observation. Kimley-Horn will make up to "
           ++ d.site_visits
           ++ " site visits to observe the progress of the work. Observations will not be exhaustive or extend to every aspect of Contractor's work, but will be limited to spot checking, and similar methods of general observation.")]
      else [])
  ++ [addBullet "Kimley-Horn will not supervise, direct, or control Contractor's work, and will not have authority to stop the Work or responsibility for the means, methods, techniques, equipment choice and use, schedules, or procedures of construction selected by Contractor.",
      addBullet "Kimley-Horn is not responsible for any duties assigned to it in the construction contract that are not expressly provided for in this Agreement.",
      addBullet "Shop Drawings and Samples. Kimley-Horn will review Shop Drawings and Samples and other data which Contractor is required to submit, but only for general conformance with the Contract Documents.",
      addBullet "Substitutes and \"or-equal/equivalent.\" Kimley-Horn will evaluate the acceptability of substitute or \"or-equal/equivalent\" materials and equipment proposed by Contractor in accordance with the Contract Documents.",
      addBullet "Kimley-Horn will respond to RFIs and Submittals within a reasonable amount of time, but not more than five (5) business days for RFIs and ten (10) business days for submittals."]

/-- Task 160 – Record Drawings, present only when `include_record_drawings`
is set (src/app.py:760-775). -/
def task160Blocks (d : FormData) : List Block :=
  if d.include_record_drawings then
    [blankPar,
     boldPar "Task 160 – Record Drawings",
     blankPar,
     addParagraph "Kimley-Horn will prepare a record drawing showing significant changes reported by the Contractor or made to the design by Kimley-Horn. Record drawings are not guaranteed to be as-built but will be based on information made available.",
     blankPar]
    ++ (if d.record_drawings_hours ≠ "" then
          [addBullet ("Given the unknown quantity of revisions, Kimley-Horn has allocated "
             ++ d.record_drawings_hours
             ++ " hours for coordination and responses in this task. Additional responses may require additional fee.")]
        else [])
  else []

/-- The Scope of Services section (src/app.py:641-775): section header then
the task sub-sections in fixed ascending task-code order. -/
def scopeBlocks (d : FormData) : List Block :=
  [blankPar, sectionHeader "Scope of Services"]
  ++ task110Blocks d
  ++ task120Blocks d
  ++ task130Blocks d
  ++ task140Blocks
  ++ task150Blocks d
  ++ task160Blocks d

/-- The Additional Services section (src/app.py:777-804). -/
def additionalServicesBlocks : List Block :=
  [blankPar,
   sectionHeader "Additional Services",
   addParagraph "Any services not specifically provided for in the above scope of services will be billed as additional services and performed at our then current hourly rates. Additional services we can provide include, but are not limited to, the following:",
   blankPar,
   addBullet "Commissioning Services.",
   addBullet "Technology Design (detailed design of access control, telecommunication, audio visual)",
   addBullet "Sustainable Certification",
   addBullet "LEED Design or Administration.",
   addBullet "Life Cycle Cost Analysis",
   addBullet "Cost Estimating",
   addBullet "Solar Photovoltaic Design",
   addBullet "Record Drawings",
   addBullet "Value engineering request, design changes, and meetings.",
   addBullet "Revit Modeling beyond standard Level of Development (LOD) 300.",
   addBullet "Project phasing or fast track construction bid / documentation.",
   addBullet "Construction administration visits beyond what is listed in the scope of services above.",
   addBullet "As-built drawings or record drawings",
   addBullet "Civil Engineering Services",
   addBullet "Structural Engineering"]

/-- The Information Provided by Client section (src/app.py:806-825). -/
def clientInfoBlocks : List Block :=
  [blankPar,
   sectionHeader "Information Provided by Client",
   addParagraph "Kimley-Horn shall be entitled to rely on the completeness and accuracy of all information provided by the Client or the Client's consultants or representatives. The Client shall provide all information requested by Kimley-Horn during the project, including but not limited to the following:",
   blankPar,
   addBullet "Architectural floor plan, site plans, life safety plans, elevations, building sections, reflected ceiling plans and architectural floor plan backgrounds, complete with room names, numbers and rated or special wall construction, will be provided by the Client's architect during the course of the design (Kimley-Horn standard is Revit).",
   addBullet "Room and equipment cut sheet information for each area, indicating equipment and furniture locations, quantity of each type of outlet, receptacle, special lighting and plumbing equipment, and connection for services as part of the Kimley-Horn design.",
   addBullet "Project contacts for all consultants and or sub consultants on the project.",
   addBullet "Client will provide all plumbing fixture cut sheets and locations to be incorporated into the plumbing scope of services above.",
   addBullet "Client will provide all lighting fixture cut sheets and locations to be incorporated into the electrical scope of services above.",
   addBullet "Civil, site drawings and surveys, indicating all underground and overhead mechanical, plumbing and electrical site utilities, which may affect design.",
   addBullet "Fire hydrant flow test data, performed at the hydrants required by the design as coordinated with the MEP, civil engineer and agency having jurisdiction."]

/-- The Schedule section (src/app.py:827-832). -/
def scheduleBlocks : List Block :=
  [blankPar,
   sectionHeader "Schedule",
   addParagraph "Kimley-Horn will perform the services as expeditiously as practicable with the goal of meeting a mutually agreed upon schedule."]

/-- The Fee and Expenses section (src/app.py:834-912): intro paragraph, the
fee table, and the invoicing paragraphs. -/
def feeBlocks (d : FormData) : List Block :=
  [blankPar,
   sectionHeader "Fee and Expenses",
   addParagraph "Kimley-Horn will perform the services in Tasks 110 – 150 for the total lump sum labor fee below. Individual task amounts are informational only. In addition to the lump sum labor fee, direct reimbursable expenses such as express delivery services, fees, air travel, and other direct expenses will be billed at 1.15 times cost. All permitting, application, and similar project fees will be paid directly by the Client.",
   blankPar,
   .table (feeTableRows d),
   blankPar,
   addParagraph "Lump sum fees will be invoiced monthly based upon the overall percentage of services performed. Reimbursable expenses will be invoiced based upon expenses incurred.",
   blankPar,
   addParagraph "Payment will be due within 25 days of your receipt of the invoice and should include the invoice number and Kimley-Horn project number.",
   blankPar,
   addParagraph "This scope of services and associated fee are predicated on the assumption that no significant architectural design changes will occur following the Final Design Development (DD) stage. Should any substantial architectural design modifications be requested after the Final DD deliverable, additional design fees will be required to address and incorporate such changes."]

/-- The signature table (src/app.py:964-976): one row, two cells. -/
def sigRows (d : FormData) : List (List String) :=
  [[d.project_manager ++ "\nProject Manager", d.senior_vp ++ "\nSenior Vice President"]]

/-- The first paragraph of the Closure section (src/app.py:918-923); its
middle run interpolates the company name. -/
def closureText (d : FormData) : String :=
  "In addition to the matters set forth herein, our Agreement shall include and be subject to, and only to, the attached Standard Provisions, which are incorporated by reference. As used in the Standard Provisions, \"Kimley-Horn\" shall refer to Kimley-Horn and Associates, Inc., and \"Client\" shall refer to "
    ++ pyOr d.company_name "___Insert Client's Legal Entity Name___" ++ "."

/-- The Closure section (src/app.py:914-976), ending with the signature
table. -/
def closureBlocks (d : FormData) : List Block :=
  [blankPar,
   sectionHeader "Closure",
   addParagraph (closureText d),
   blankPar,
   addParagraph "Kimley-Horn, in an effort to expedite invoices and reduce paper waste, submits invoices via email in a PDF. We can also provide a paper copy via regular mail if requested. Please include the invoice number and Kimley-Horn project number with all payments. Please provide the following information:",
   blankPar,
   addParagraph ("____ Please email all invoices to " ++ d.invoice_email),
   addParagraph ("____ Please copy " ++ d.invoice_copy),
   blankPar,
   addParagraph "To proceed with the services, please have an authorized person sign this Agreement below and return to us. We will commence services only after we have received a fully-executed agreement. Fees and times stated in this Agreement are valid for sixty (60) days after the date of this letter.",
   blankPar,
   addParagraph "To ensure proper set up of your projects so that we can get started, please complete and return with the signed copy of this Agreement the attached Request for Information. Failure to supply this information could result in delay in starting work on this project.",
   blankPar,
   addParagraph "We appreciate the opportunity to provide these services. Please contact me if you have any questions.",
   blankPar,
   addParagraph "Sincerely,",
   blankPar,
   blankPar,
   boldPar "KIMLEY-HORN AND ASSOCIATES, INC.",
   blankPar,
   blankPar,
   .table (sigRows d)]

/-- The client signature page (src/app.py:978-1012), after the page break. -/
def signaturePageBlocks : List Block :=
  [.pageBreak,
   addParagraph "If the recipient changes the legal entity name or signs as any name other than the client named in the opening address block, do not accept this and prepare a new Letter Agreement with the appropriate client identified after discussion with the client.",
   blankPar,
   boldPar "CORRECT CLIENT ENTITY – ALL CAPS – CHECK SUNBIZ.",
   blankPar,
   blankPar,
   addParagraph "SIGNED: _________________________________",
   blankPar,
   addParagraph "PRINTED NAME: _________________________________",
   blankPar,
   addParagraph "TITLE: _________________________________",
   blankPar,
   addParagraph "DATE: _________________________________",
   blankPar,
   blankPar,
   addParagraph "Client's Federal Tax ID: _________________________________",
   blankPar,
   addParagraph "Client's Business License No.: _________________________________",
   blankPar,
   addParagraph "Client's Street Address: _________________________________",
   blankPar,
   blankPar,
   addParagraph "Attachment – Request for Information",
   addParagraph "Attachment – Standard Provisions"]

/-- The whole document body, in source order (src/app.py:392-1012), given
the already-computed `last_name`. -/
def buildBlocks (d : FormData) (last_name : String) : List Block :=
  introBlocks d last_name
  ++ assumptionBlocks d
  ++ scopeBlocks d
  ++ additionalServicesBlocks
  ++ clientInfoBlocks
  ++ scheduleBlocks
  ++ feeBlocks d
  ++ closureBlocks d
  ++ signaturePageBlocks

/-- Models `create_proposal_document` (src/app.py:371-1014).  The only
operation in the function that can raise on a `form_data` dictionary is the
`split()[-1]` of src/app.py:418 (modelled by `lastNameOf`); everything else
is straight-line construction, so the result is the full block list, or the
exception.  Header/footer setup (margins, logo, footer bar) touches only
section properties and is outside the body model. -/
def create_proposal_document (d : FormData) : Except String (List Block) :=
  (lastNameOf d.client_contact).map (fun last_name => buildBlocks d last_name)

/-- The widget values consulted by the validation check and the download
filename (src/app.py:1342-1348, 1464): the five checked fields plus the two
client address lines (which the check does not consult). -/
structure WidgetState where
  client_contact : String
  company_name : String
  project_name : String
  project_address : String
  project_city : String
  address1 : String
  address2 : String
deriving DecidableEq, Repr

/-- Models the `required_fields` dictionary (src/app.py:1342-1348): label
paired with widget value, in insertion order. -/
def required_fields (s : WidgetState) : List (String × String) :=
  [("Client Contact", s.client_contact),
   ("Company Name", s.company_name),
   ("Project Name", s.project_name),
   ("Project Address", s.project_address),
   ("Project City", s.project_city)]

/-- Models `missing_fields` (src/app.py:1350): the labels of the entries
whose value is falsy (the empty string). -/
def missing_fields (s : WidgetState) : List String :=
  ((required_fields s).filter (fun p => p.2 = "")).map (fun p => p.1)

/-- Models the generate button's `disabled=bool(missing_fields)`
(src/app.py:1359). -/
def generate_disabled (s : WidgetState) : Bool :=
  !(missing_fields s).isEmpty

/-- Models Python `s.replace(' ', '_')`: every space becomes an
underscore. -/
def space_to_underscore (s : String) : String :=
  ⟨s.data.map (fun c => if c = ' ' then '_' else c)⟩

/-- Models the download filename (src/app.py:1464):
`f"MEP_Proposal_{company_name.replace(' ', '_') if company_name else 'Draft'}_{datetime.now().strftime('%Y%m%d')}.docx"`.
`today_ymd` stands for the `datetime.now().strftime('%Y%m%d')` string. -/
def download_filename (company_name : String) (today_ymd : String) : String :=
  "MEP_Proposal_"
    ++ (if company_name ≠ "" then space_to_underscore company_name else "Draft")
    ++ "_" ++ today_ymd ++ ".docx"

/-- What the generate click renders (src/app.py:1452-1483): whether the
success banner is shown, the error banner text, the content of the
expandable error-details panel, and the download button's payload
(filename and document) when one is offered. -/
structure GenerateOutcome where
  success_banner : Bool
  error_banner : Option String
  error_detail : Option String
  download : Option (String × List Block)
deriving DecidableEq, Repr

/-- Models the generate button handler's try/except (src/app.py:1454-1483).
The try block builds the document, saves it and offers the download button;
the except block shows the generic error banner with `str(e)` and the
expandable detail panel, and offers no download.  Neither branch assigns to
any form widget, so the widget state is returned unchanged. -/
def generate_click (s : WidgetState) (d : FormData) (today_ymd : String) :
    WidgetState × GenerateOutcome :=
  match create_proposal_document d with
  | .ok bs =>
    (s, { success_banner := true, error_banner := none, error_detail := none,
          download := some (download_filename s.company_name today_ymd, bs) })
  | .error e =>
    (s, { success_banner := false,
          error_banner := some ("❌ **Error generating document:** " ++ e),
          error_detail := some e,
          download := none })

/-- The raw fee-tab widget values (src/app.py:1280-1296) together with the
record-drawings checkbox (src/app.py:1268) that guards the sixth fee. -/
structure RawFees where
  fee_sd : FeeStr
  fee_dd : FeeStr
  fee_cd : FeeStr
  fee_bidding : FeeStr
  fee_construction : FeeStr
  fee_record_drawings : FeeStr
  include_record_drawings : Bool
deriving DecidableEq, Repr

/-- Models one fee entry of the `form_data` dictionary (src/app.py:1440-1444):
`format_currency(fee) if fee else "XXX"`.  `float("XXX")` raises, so the
placeholder's parse is `none`. -/
def formFeeField (raw : FeeStr) : FeeStr :=
  if raw.text ≠ "" then format_currency raw else { text := "XXX", parsed := none }

/-- Models the record-drawings fee entry (src/app.py:1445):
`format_currency(fee_record_drawings) if include_record_drawings and
fee_record_drawings else ""`. -/
def formRecordFee (inc : Bool) (raw : FeeStr) : FeeStr :=
  if inc && decide (raw.text ≠ "") then format_currency raw
  else { text := "", parsed := none }

/-- The fee-related entries of the `form_data` dictionary as assembled by
the generate handler (src/app.py:1438-1445), overlaid on the rest of the
form data. -/
def applyFormFees (r : RawFees) (d : FormData) : FormData :=
  { d with
    include_record_drawings := r.include_record_drawings,
    fee_sd := formFeeField r.fee_sd,
    fee_dd := formFeeField r.fee_dd,
    fee_cd := formFeeField r.fee_cd,
    fee_bidding := formFeeField r.fee_bidding,
    fee_construction := formFeeField r.fee_construction,
    fee_record_drawings := formRecordFee r.include_record_drawings r.fee_record_drawings }

/-- Selects the task headings of a block: a paragraph whose runs are bold
and not underlined and whose text starts with `"Task "`.  In the assembled
document the bold non-underlined paragraphs are exactly the six task
headings plus two fixed closure/signature lines, independent of the form
data, so this selector is exact. -/
def taskHeadOf : Block → Option String
  | .par t true false => if "Task ".data.isPrefixOf t.data then some t else none
  | _ => none

/-- The task headings of a document body, in order of appearance. -/
def taskHeadings (bs : List Block) : List String :=
  bs.filterMap taskHeadOf

/-- Selects a table block's rows. -/
def tableOf : Block → Option (List (List String))
  | .table rows => some rows
  | _ => none

/-- The tables of a document body, in order of appearance. -/
def bodyTables (bs : List Block) : List (List (List String)) :=
  bs.filterMap tableOf

/-- The five required widget values are all populated (truthy), i.e. the
validation check of src/app.py:1350 finds nothing missing.  Stated on the
`form_data` fields those widget values flow into unchanged
(src/app.py:1364-1371). -/
def requiredPopulated (d : FormData) : Prop :=
  d.client_contact ≠ "" ∧ d.company_name ≠ "" ∧ d.project_name ≠ "" ∧
    d.project_address ≠ "" ∧ d.project_city ≠ ""

/-- A concrete, fully populated form-data dictionary, mirroring the form's
default widget values with all required fields filled, used to evaluate the
theorems at a concrete input. -/
def sampleForm : FormData where
  date := "October 15, 2024"
  client_title := "Mr."
  client_contact := "John Smith"
  company_name := "Acme Development, LLC"
  address1 := "123 Main Street"
  address2 := "Tampa, FL 33601"
  project_name := "Downtown Office Complex"
  project_address := "456 Business Avenue"
  project_city := "St. Petersburg"
  project_state := "FL"
  is_new_building := true
  is_renovation := false
  building_stories := "10"
  total_area := "150,000"
  construction_phases := ""
  separate_buildings := false
  core_and_shell := false
  leed_rating := "Not Applicable"
  construction_budget := ""
  unit_types := ""
  typical_floors := ""
  retail_core_shell := false
  retail_electrical := false
  retail_plumbing := false
  retail_food_beverage := false
  retail_mechanical := false
  hvac_system := "Centralized Chilled Water"
  hvac_residential_highrise := false
  hvac_existing_reuse := false
  outside_air_unit := true
  exhaust_system := "Dedicated Roof Fan"
  parking_garage := "Open-Air"
  smoke_control := false
  elevator_hoistway := false
  water_service := "Single Meter"
  roof_drainage := "Internal Drains"
  roof_storm_drain := true
  parking_garage_drain := false
  water_oil_separator := false
  sump_pump := false
  booster_pump := false
  sanitary_vent := true
  grease_waste := false
  natural_gas := false
  fuel_delivery := false
  civil_coordination := true
  existing_electrical_renovation := false
  power_receptacles := true
  core_shell_electrical := false
  lighting_coordination := true
  lightning_protection := "Excluded"
  emergency_generator := "Excluded"
  ev_charging := "Excluded"
  ev_ready_spaces := ""
  ev_capable_spaces := ""
  fire_alarm := true
  technology_design := true
  fire_pump := "Excluded"
  weekly_meetings := true
  revit_lod := "300"
  revit_coordination_hours := ""
  sd_existing_survey := false
  sd_site_visit_hours := ""
  sd_weeks := "3"
  sd_meeting_hours := "1"
  sd_total_meetings := "3"
  dd_weeks := "6"
  dd_meeting_hours := "1"
  dd_total_meetings := "6"
  dd_rounds := "2"
  cd_weeks := "12"
  cd_meeting_hours := "1"
  cd_total_meetings := "12"
  cd_percentages := "25%, 50%, 75%, and 90%"
  site_visits := "6"
  include_record_drawings := false
  record_drawings_hours := ""
  fee_sd := { text := "25,000", parsed := some ((25000 : ℤ) : ℚ) }
  fee_dd := { text := "45,000", parsed := some ((45000 : ℤ) : ℚ) }
  fee_cd := { text := "85,000", parsed := some ((85000 : ℤ) : ℚ) }
  fee_bidding := { text := "5,000", parsed := some ((5000 : ℤ) : ℚ) }
  fee_construction := { text := "25,000", parsed := some ((25000 : ℤ) : ℚ) }
  fee_record_drawings := { text := "", parsed := none }
  invoice_email := "accounting@acme.com"
  invoice_copy := ""
  project_manager := "Clayton Scelzi"
  senior_vp := "Scott W. Gilner, PE"

/-- A form identical to `sampleForm` except that the client contact is a
single space: truthy for the required-field check and for the
`if data['client_contact']` test, yet `split()` yields no tokens. -/
def whitespaceContactForm : FormData := { sampleForm with client_contact := " " }

/-- A second whitespace-only-contact form (two spaces). -/
def whitespaceContactForm2 : FormData := { sampleForm with client_contact := "  " }

/-- A third whitespace-only-contact form (a tab). -/
def whitespaceContactForm3 : FormData := { sampleForm with client_contact := "\t" }

/-- A widget state with every checked required field filled but both client
address lines empty. -/
def addresslessState : WidgetState :=
  { client_contact := "John Smith", company_name := "Acme Development, LLC",
    project_name := "Downtown Office Complex", project_address := "456 Business Avenue",
    project_city := "St. Petersburg", address1 := "", address2 := "" }

/-- Modelled from the spec's words (C2), for comparison with the code's
`download_filename`: the filename is claimed to begin with `Proposal_`,
the project name with spaces replaced by underscores truncated to its
first 30 characters, and the proposal date in `YYYYMMDD` form. -/
def claimedFilenameStart (project_name ymd : String) : String :=
  "Proposal_" ++ (⟨(space_to_underscore project_name).data.take 30⟩ : String) ++ "_" ++ ymd

/-- A form whose six fee entries all fail to parse (or are empty). -/
def allInvalidFeeForm : FormData :=
  { sampleForm with
    fee_sd := { text := "abc", parsed := none },
    fee_dd := { text := "XXX", parsed := none },
    fee_cd := { text := "n/a", parsed := none },
    fee_bidding := { text := "", parsed := none },
    fee_construction := { text := "TBD", parsed := none } }

/-- A form whose five base fee entries are all the currency string `"0"`. -/
def allZeroFeeForm : FormData :=
  { sampleForm with
    fee_sd := { text := "0", parsed := some ((0 : ℤ) : ℚ) },
    fee_dd := { text := "0", parsed := some ((0 : ℤ) : ℚ) },
    fee_cd := { text := "0", parsed := some ((0 : ℤ) : ℚ) },
    fee_bidding := { text := "0", parsed := some ((0 : ℤ) : ℚ) },
    fee_construction := { text := "0", parsed := some ((0 : ℤ) : ℚ) } }

/-- Concrete raw fee-tab inputs: three filled fees, an empty Design
Development fee, and no record-drawings task. -/
def rawFeesSample : RawFees :=
  { fee_sd := { text := "25000", parsed := some ((25000 : ℤ) : ℚ) },
    fee_dd := { text := "", parsed := none },
    fee_cd := { text := "85000", parsed := some ((85000 : ℤ) : ℚ) },
    fee_bidding := { text := "5000", parsed := some ((5000 : ℤ) : ℚ) },
    fee_construction := { text := "25000", parsed := some ((25000 : ℤ) : ℚ) },
    fee_record_drawings := { text := "", parsed := none },
    include_record_drawings := false }

/-- One fee entry holds a parseable currency string: the stripped text is
non-empty (so `calculate_total` does not take its `or 0` fallback) and it
parses to the whole-dollar amount `z`. -/
def holds_currency (f : FeeStr) (z : ℤ) : Prop :=
  stripDollarComma f.text ≠ "" ∧ f.parsed = some ((z : ℤ) : ℚ)

/-- One fee entry is either the empty string (contributing zero) or holds
the whole-dollar currency amount `z`. -/
def empty_or_currency (f : FeeStr) (z : ℤ) : Prop :=
  (f.text = "" ∧ z = 0) ∨ holds_currency f z

section ExtractionLemmas

@[simp] theorem taskHeadOf_addParagraph (t : String) : taskHeadOf (addParagraph t) = none := rfl

@[simp] theorem taskHeadOf_addBullet (t : String) : taskHeadOf (addBullet t) = none := rfl

@[simp] theorem taskHeadOf_addSubBullet (t : String) : taskHeadOf (addSubBullet t) = none := rfl

@[simp] theorem taskHeadOf_addSubSubBullet (t : String) : taskHeadOf (addSubSubBullet t) = none := rfl

@[simp] theorem taskHeadOf_blankPar : taskHeadOf blankPar = none := rfl

@[simp] theorem taskHeadOf_sectionHeader (t : String) : taskHeadOf (sectionHeader t) = none := rfl

@[simp] theorem taskHeadOf_table (rows : List (List String)) : taskHeadOf (.table rows) = none := rfl

@[simp] theorem taskHeadOf_pageBreak : taskHeadOf .pageBreak = none := rfl

@[simp] theorem taskHeadOf_t110 :
    taskHeadOf (boldPar "Task 110 – Schematic Design") = some "Task 110 – Schematic Design" := by decide

@[simp] theorem taskHeadOf_t120 :
    taskHeadOf (boldPar "Task 120 – Design Development") = some "Task 120 – Design Development" := by decide

@[simp] theorem taskHeadOf_t130 :
    taskHeadOf (boldPar "Task 130 – Construction Documents") = some "Task 130 – Construction Documents" := by decide

@[simp] theorem taskHeadOf_t140 :
    taskHeadOf (boldPar "Task 140 – Bidding and Negotiations") = some "Task 140 – Bidding and Negotiations" := by decide

@[simp] theorem taskHeadOf_t150 :
    taskHeadOf (boldPar "Task 150 – Limited Construction Phase Services") = some "Task 150 – Limited Construction Phase Services" := by decide

@[simp] theorem taskHeadOf_t160 :
    taskHeadOf (boldPar "Task 160 – Record Drawings") = some "Task 160 – Record Drawings" := by decide

@[simp] theorem taskHeadOf_closure_company :
    taskHeadOf (boldPar "KIMLEY-HORN AND ASSOCIATES, INC.") = none := by decide

@[simp] theorem taskHeadOf_signature_page :
    taskHeadOf (boldPar "CORRECT CLIENT ENTITY – ALL CAPS – CHECK SUNBIZ.") = none := by decide

@[simp] theorem taskHeadings_nil : taskHeadings [] = [] := rfl

@[simp] theorem taskHeadings_append (a b : List Block) :
    taskHeadings (a ++ b) = taskHeadings a ++ taskHeadings b := by
  simp [taskHeadings]

@[simp] theorem taskHeadings_cons_none (x : Block) (l : List Block) (h : taskHeadOf x = none) :
    taskHeadings (x :: l) = taskHeadings l := by
  simp [taskHeadings, List.filterMap_cons, h]

@[simp] theorem taskHeadings_cons_some (x : Block) (l : List Block) (t : String)
    (h : taskHeadOf x = some t) :
    taskHeadings (x :: l) = t :: taskHeadings l := by
  simp [taskHeadings, List.filterMap_cons, h]

@[simp] theorem taskHeadings_ite (c : Prop) [Decidable c] (a b : List Block) :
    taskHeadings (if c then a else b) = if c then taskHeadings a else taskHeadings b := by
  split <;> rfl

@[simp] theorem tableOf_addParagraph (t : String) : tableOf (addParagraph t) = none := rfl

@[simp] theorem tableOf_addBullet (t : String) : tableOf (addBullet t) = none := rfl

@[simp] theorem tableOf_addSubBullet (t : String) : tableOf (addSubBullet t) = none := rfl

@[simp] theorem tableOf_addSubSubBullet (t : String) : tableOf (addSubSubBullet t) = none := rfl

@[simp] theorem tableOf_blankPar : tableOf blankPar = none := rfl

@[simp] theorem tableOf_sectionHeader (t : String) : tableOf (sectionHeader t) = none := rfl

@[simp] theorem tableOf_boldPar (t : String) : tableOf (boldPar t) = none := rfl

@[simp] theorem tableOf_par (t : String) (b u : Bool) : tableOf (.par t b u) = none := rfl

@[simp] theorem tableOf_table (rows : List (List String)) : tableOf (.table rows) = some rows := rfl

@[simp] theorem tableOf_pageBreak : tableOf .pageBreak = none := rfl

@[simp] theorem bodyTables_nil : bodyTables [] = [] := rfl

@[simp] theorem bodyTables_append (a b : List Block) :
    bodyTables (a ++ b) = bodyTables a ++ bodyTables b := by
  simp [bodyTables]

@[simp] theorem bodyTables_cons_none (x : Block) (l : List Block) (h : tableOf x = none) :
    bodyTables (x :: l) = bodyTables l := by
  simp [bodyTables, List.filterMap_cons, h]

@[simp] theorem bodyTables_cons_some (x : Block) (l : List Block) (rows : List (List String))
    (h : tableOf x = some rows) :
    bodyTables (x :: l) = rows :: bodyTables l := by
  simp [bodyTables, List.filterMap_cons, h]

@[simp] theorem bodyTables_ite (c : Prop) [Decidable c] (a b : List Block) :
    bodyTables (if c then a else b) = if c then bodyTables a else bodyTables b := by
  split <;> rfl

theorem taskHeadings_introBlocks (d : FormData) (ln : String) :
    taskHeadings (introBlocks d ln) = [] := by
  simp [introBlocks]

theorem taskHeadings_assumptionBlocks (d : FormData) :
    taskHeadings (assumptionBlocks d) = [] := by
  simp [assumptionBlocks, assumptionListBlocks, retailBlocks, hvacBlocks, plumbingBlocks,
    electricalBlocks, fireRevitBlocks]

theorem taskHeadings_scopeBlocks (d : FormData) :
    taskHeadings (scopeBlocks d)
      = ["Task 110 – Schematic Design", "Task 120 – Design Development",
         "Task 130 – Construction Documents", "Task 140 – Bidding and Negotiations",
         "Task 150 – Limited Construction Phase Services"]
        ++ (if d.include_record_drawings then ["Task 160 – Record Drawings"] else []) := by
  simp [scopeBlocks, task110Blocks, task120Blocks, task130Blocks, task140Blocks,
    task150Blocks, task160Blocks]

theorem taskHeadings_tailBlocks (d : FormData) :
    taskHeadings (additionalServicesBlocks ++ clientInfoBlocks ++ scheduleBlocks
      ++ feeBlocks d ++ closureBlocks d ++ signaturePageBlocks) = [] := by
  simp [additionalServicesBlocks, clientInfoBlocks, scheduleBlocks, feeBlocks,
    closureBlocks, signaturePageBlocks]

theorem taskHeadings_buildBlocks (d : FormData) (ln : String) :
    taskHeadings (buildBlocks d ln)
      = ["Task 110 – Schematic Design", "Task 120 – Design Development",
         "Task 130 – Construction Documents", "Task 140 – Bidding and Negotiations",
         "Task 150 – Limited Construction Phase Services"]
        ++ (if d.include_record_drawings then ["Task 160 – Record Drawings"] else []) := by
  have h1 := taskHeadings_introBlocks d ln
  have h2 := taskHeadings_assumptionBlocks d
  have h3 := taskHeadings_scopeBlocks d
  have h4 := taskHeadings_tailBlocks d
  simp only [buildBlocks, List.append_assoc, taskHeadings_append] at *
  simp [h1, h2, h3, h4]

theorem bodyTables_introBlocks (d : FormData) (ln : String) :
    bodyTables (introBlocks d ln) = [] := by
  simp [introBlocks]

theorem bodyTables_assumptionBlocks (d : FormData) :
    bodyTables (assumptionBlocks d) = [] := by
  simp [assumptionBlocks, assumptionListBlocks, retailBlocks, hvacBlocks, plumbingBlocks,
    electricalBlocks, fireRevitBlocks]

theorem bodyTables_scopeBlocks (d : FormData) :
    bodyTables (scopeBlocks d) = [] := by
  simp [scopeBlocks, task110Blocks, task120Blocks, task130Blocks, task140Blocks,
    task150Blocks, task160Blocks]

theorem bodyTables_tailBlocks (d : FormData) :
    bodyTables (additionalServicesBlocks ++ clientInfoBlocks ++ scheduleBlocks
      ++ feeBlocks d ++ closureBlocks d ++ signaturePageBlocks)
      = [feeTableRows d, sigRows d] := by
  simp [additionalServicesBlocks, clientInfoBlocks, scheduleBlocks, feeBlocks,
    closureBlocks, signaturePageBlocks]

theorem bodyTables_buildBlocks (d : FormData) (ln : String) :
    bodyTables (buildBlocks d ln) = [feeTableRows d, sigRows d] := by
  have h1 := bodyTables_introBlocks d ln
  have h2 := bodyTables_assumptionBlocks d
  have h3 := bodyTables_scopeBlocks d
  have h4 := bodyTables_tailBlocks d
  simp only [buildBlocks, List.append_assoc, bodyTables_append] at *
  simp [h1, h2, h3, h4]

end ExtractionLemmas

section HelperLemmas

/-- An unparseable fee entry contributes nothing to the total. -/
theorem feeContribution_of_parsed_none (f : FeeStr) (h : f.parsed = none) :
    feeContribution f = 0 := by
  simp [feeContribution, h]

/-- A fee entry satisfying `empty_or_currency` contributes exactly its
whole-dollar amount. -/
theorem feeContribution_spec (f : FeeStr) (z : ℤ) (h : empty_or_currency f z) :
    feeContribution f = ((z : ℤ) : ℚ) := by
  rcases h with ⟨ht, hz⟩ | ⟨hs, hp⟩
  · subst hz
    have hstrip : stripDollarComma f.text = "" := by rw [ht]; rfl
    simp [feeContribution, hstrip]
  · simp [feeContribution, hs, hp]

/-- Banker's rounding is the identity on integers. -/
theorem pyRound_intCast (z : ℤ) : pyRound ((z : ℤ) : ℚ) = z := by
  simp [pyRound, Rat.num_intCast, Rat.den_intCast]

/-- The last row of the fee table is the total row. -/
theorem feeTableRows_total_row (d : FormData) :
    (feeTableRows d).getLast? = some ["Total", "$" ++ calculate_total d, ""] := by
  rw [feeTableRows, List.getLast?_concat]

/-- Every row of the fee table has exactly three cells. -/
theorem feeTableRows_cols (d : FormData) : ∀ row ∈ feeTableRows d, row.length = 3 := by
  intro row h
  rw [feeTableRows] at h
  rcases List.mem_cons.mp h with rfl | h2
  · rfl
  rcases List.mem_append.mp h2 with h3 | h4
  · obtain ⟨x, -, rfl⟩ := List.mem_map.mp h3
    rfl
  · rw [List.mem_singleton.mp h4]
    rfl

/-- No output of `Nat.digitChar` is a comma or a dollar sign. -/
theorem digitChar_ne_comma_dollar (d : Nat) :
    Nat.digitChar d ≠ ',' ∧ Nat.digitChar d ≠ '$' := by
  rcases Nat.lt_or_ge d 16 with h | h
  · interval_cases d <;> exact ⟨by decide, by decide⟩
  · obtain ⟨m, rfl⟩ := Nat.exists_eq_add_of_le h
    have hstar : Nat.digitChar (16 + m) = '*' := by
      unfold Nat.digitChar
      repeat rw [if_neg (by omega)]
    rw [hstar]
    exact ⟨by decide, by decide⟩

/-- Every character of `Nat.toDigitsCore` output comes from the
accumulator or is a digit character. -/
theorem mem_toDigitsCore (b : Nat) :
    ∀ (f n : Nat) (acc : List Char) (c : Char), c ∈ Nat.toDigitsCore b f n acc →
      c ∈ acc ∨ ∃ d, c = Nat.digitChar d := by
  intro f
  induction f with
  | zero => exact fun n acc c h => Or.inl h
  | succ f ih =>
    intro n acc c h
    rw [Nat.toDigitsCore] at h
    split at h
    · rcases List.mem_cons.mp h with rfl | h2
      · exact Or.inr ⟨_, rfl⟩
      · exact Or.inl h2
    · rcases ih _ _ _ h with h2 | h2
      · rcases List.mem_cons.mp h2 with rfl | h3
        · exact Or.inr ⟨_, rfl⟩
        · exact Or.inl h3
      · exact Or.inr h2

/-- The decimal numeral of a natural number contains no comma and no
dollar sign. -/
theorem toString_nat_no_comma_dollar (n : Nat) :
    ∀ c ∈ (toString n).data, (decide (c ≠ ',') && decide (c ≠ '$')) = true := by
  intro c hc
  have h1 : (toString n).data = Nat.toDigitsCore 10 (n + 1) n [] := rfl
  rw [h1] at hc
  rcases mem_toDigitsCore 10 (n + 1) n [] c hc with h | ⟨d, rfl⟩
  · exact absurd h (List.not_mem_nil c)
  · have hd := digitChar_ne_comma_dollar d
    simp [hd.1, hd.2]

/-- Filtering out commas undoes the comma grouping. -/
theorem filter_commaChunksRev (p : Char → Bool) (hp : p ',' = false) :
    ∀ (fuel : Nat) (l : List Char), (commaChunksRev fuel l).filter p = l.filter p := by
  intro fuel
  induction fuel with
  | zero => intro l; rfl
  | succ f ih =>
    intro l
    rw [commaChunksRev]
    split
    · rfl
    · rw [List.filter_append, List.filter_cons, hp]
      rw [if_neg Bool.false_ne_true, ih]
      rw [← List.filter_append, List.take_append_drop]

/-- Stripping `$` and `,` from the comma-grouped rendering of `n` recovers
exactly the plain decimal numeral of `n`: the grouped rendering denotes
precisely `n`. -/
theorem stripDollarComma_natComma (n : Nat) :
    stripDollarComma (natComma n) = toString n := by
  have hdata : ((commaChunksRev (toString n).data.length (toString n).data.reverse).reverse).filter
        (fun c => decide (c ≠ ',') && decide (c ≠ '$')) = (toString n).data := by
    rw [List.filter_reverse, filter_commaChunksRev _ (by decide),
      List.filter_reverse, List.reverse_reverse,
      List.filter_eq_self.mpr (toString_nat_no_comma_dollar n)]
  show (⟨((commaChunksRev (toString n).data.length (toString n).data.reverse).reverse).filter
        (fun c => decide (c ≠ ',') && decide (c ≠ '$'))⟩ : String) = toString n
  rw [hdata]

/-- The total of the all-invalid-fees form is zero. -/
theorem totalFee_allInvalidFeeForm : totalFee allInvalidFeeForm = 0 := by
  have h : calcFeeList allInvalidFeeForm
      = [{ text := "abc", parsed := none }, { text := "XXX", parsed := none },
         { text := "n/a", parsed := none }, { text := "", parsed := none },
         { text := "TBD", parsed := none }] := rfl
  simp [totalFee, h, feeContribution_of_parsed_none]

/-- The total of the all-zero-fees form is zero. -/
theorem totalFee_allZeroFeeForm : totalFee allZeroFeeForm = 0 := by
  have h : calcFeeList allZeroFeeForm
      = [{ text := "0", parsed := some ((0 : ℤ) : ℚ) }, { text := "0", parsed := some ((0 : ℤ) : ℚ) },
         { text := "0", parsed := some ((0 : ℤ) : ℚ) }, { text := "0", parsed := some ((0 : ℤ) : ℚ) },
         { text := "0", parsed := some ((0 : ℤ) : ℚ) }] := rfl
  have hc : feeContribution { text := "0", parsed := some (0 : ℚ) } = 0 := by decide
  simp [totalFee, h, hc]

end HelperLemmas

set_option maxRecDepth 8000 in
/-- C3 (amended): the generate action is disabled exactly when one of the
five checked fields — Client Contact, Company Name, Project Name, Project
Address, Project City — is empty, and `missing_fields` lists exactly the
names of the empty ones among those five, in the dictionary's fixed order.
The client address lines are not checked, and this variant has no project
description field and no task-selection checkboxes. -/
theorem claim_C3_required_field_gating (s : WidgetState) :
    (generate_disabled s = true ↔
      (s.client_contact = "" ∨ s.company_name = "" ∨ s.project_name = "" ∨
        s.project_address = "" ∨ s.project_city = ""))
  ∧ missing_fields s
      = (if s.client_contact = "" then ["Client Contact"] else [])
        ++ (if s.company_name = "" then ["Company Name"] else [])
        ++ (if s.project_name = "" then ["Project Name"] else [])
        ++ (if s.project_address = "" then ["Project Address"] else [])
        ++ (if s.project_city = "" then ["Project City"] else []) := by
  by_cases h1 : s.client_contact = "" <;> by_cases h2 : s.company_name = "" <;>
    by_cases h3 : s.project_name = "" <;> by_cases h4 : s.project_address = "" <;>
    by_cases h5 : s.project_city = "" <;>
    simp [generate_disabled, missing_fields, required_fields, h1, h2, h3, h4, h5]

/-- C3 counterexample: a widget state with both client address lines empty
(and, as everywhere in this variant, no description or task selection to
fill in) passes validation: nothing is listed as missing and the generate
action is enabled, contradicting the claim's required-field list. -/
theorem claim_C3_counterexample :
    addresslessState.address1 = "" ∧ addresslessState.address2 = ""
  ∧ generate_disabled addresslessState = false
  ∧ missing_fields addresslessState = [] := by
  decide

/-- C2 (amended): for a non-empty company name, the download filename is
`MEP_Proposal_` followed by the company name (not the project name) with
spaces replaced by underscores, an underscore, the current date (not the
proposal date) in `YYYYMMDD` form, and `.docx`; no truncation to 30
characters happens, as the length equation shows. -/
theorem claim_C2_download_filename (company now : String) (h : company ≠ "") :
    download_filename company now
      = "MEP_Proposal_" ++ space_to_underscore company ++ "_" ++ now ++ ".docx"
  ∧ (download_filename company now).length = 19 + company.length + now.length := by
  have hfn : download_filename company now
      = "MEP_Proposal_" ++ space_to_underscore company ++ "_" ++ now ++ ".docx" := by
    simp [download_filename, h]
  refine ⟨hfn, ?_⟩
  have hlen : (space_to_underscore company).length = company.length := by
    have h0 : (space_to_underscore company).length
        = (company.data.map (fun c => if c = ' ' then '_' else c)).length := rfl
    rw [h0, List.length_map]
    rfl
  have l1 : ("MEP_Proposal_" : String).length = 13 := by decide
  have l2 : ("_" : String).length = 1 := by decide
  have l3 : (".docx" : String).length = 5 := by decide
  rw [hfn]
  simp only [String.length_append, hlen, l1, l2, l3]
  omega

/-- C2 witness: the amended filename equation evaluated at a concrete
company name and date. -/
theorem claim_C2_witness :
    download_filename "Acme Corp" "20241015"
      = "MEP_Proposal_" ++ space_to_underscore "Acme Corp" ++ "_" ++ "20241015" ++ ".docx"
  ∧ (download_filename "Acme Corp" "20241015").length
      = 19 + ("Acme Corp" : String).length + ("20241015" : String).length :=
  claim_C2_download_filename "Acme Corp" "20241015" (by decide)

/-- C2 counterexample: the generated filename is built from the company
name and the current date with prefix `MEP_Proposal_`; it does not begin
with `Proposal_`, and even when the company name coincides with the spec's
example project name the claimed beginning is not a prefix of it. -/
theorem claim_C2_counterexample :
    download_filename "Acme Corp" "20241015" = "MEP_Proposal_Acme_Corp_20241015.docx"
  ∧ "Proposal_".data.isPrefixOf (download_filename "Acme Corp" "20241015").data = false
  ∧ (claimedFilenameStart "Self Storage – 7400 22nd Ave N" "20241015").data.isPrefixOf
      (download_filename "Self Storage – 7400 22nd Ave N" "20241015").data = false := by
  refine ⟨rfl, by decide, by decide⟩

/-- C7: when building the document raises, the generate handler catches the
exception at its top-level try/except, shows the generic error banner with
the exception text and the expandable detail panel, offers no success
banner and no download button, and leaves every entered widget value
unchanged. -/
theorem claim_C7_error_handling (s : WidgetState) (d : FormData) (now e : String)
    (h : create_proposal_document d = .error e) :
    generate_click s d now
      = (s, { success_banner := false,
              error_banner := some ("❌ **Error generating document:** " ++ e),
              error_detail := some e,
              download := none }) := by
  simp [generate_click, h]

/-- C7 witness: the handler's behaviour on a form whose assembly raises
`IndexError` (whitespace-only contact name). -/
theorem claim_C7_witness :
    generate_click addresslessState whitespaceContactForm3 "20241015"
      = (addresslessState,
         { success_banner := false,
           error_banner := some "❌ **Error generating document:** IndexError: list index out of range",
           error_detail := some "IndexError: list index out of range",
           download := none }) :=
  claim_C7_error_handling addresslessState whitespaceContactForm3 "20241015"
    "IndexError: list index out of range" rfl

/-- C4 (amended): for form data whose five required fields are populated
and whose contact name contains at least one whitespace-separated token,
document assembly raises nothing and produces a non-empty document (the
serialization of that document to OOXML bytes is the docx library's
concern).  The token condition is forced by the counterexample: a
whitespace-only contact passes the required-field check but makes
`split()[-1]` raise. -/
theorem claim_C4_assembly_succeeds (d : FormData)
    (hreq : requiredPopulated d) (htok : pySplitWs d.client_contact ≠ []) :
    ∃ bs, create_proposal_document d = .ok bs ∧ bs ≠ [] := by
  obtain ⟨hc, -, -, -, -⟩ := hreq
  obtain ⟨t, ht⟩ : ∃ t, (pySplitWs d.client_contact).getLast? = some t := by
    cases hl : pySplitWs d.client_contact with
    | nil => exact absurd hl htok
    | cons a l => exact ⟨(a :: l).getLast (by simp), List.getLast?_eq_getLast _ _⟩
  refine ⟨buildBlocks d t, ?_, ?_⟩
  · simp [create_proposal_document, lastNameOf, hc, ht, Except.map]
  · simp [buildBlocks, introBlocks]

/-- C4 witness: assembly succeeds on the fully populated sample form. -/
theorem claim_C4_witness :
    ∃ bs, create_proposal_document sampleForm = .ok bs ∧ bs ≠ [] :=
  claim_C4_assembly_succeeds sampleForm
    ⟨by decide, by decide, by decide, by decide, by decide⟩ (by decide)

/-- C4 counterexample: a form whose required fields are all populated (the
contact is the non-empty string `" "`) on which document assembly raises
`IndexError` instead of succeeding. -/
theorem claim_C4_counterexample :
    requiredPopulated whitespaceContactForm
  ∧ create_proposal_document whitespaceContactForm
      = .error "IndexError: list index out of range" :=
  ⟨⟨by decide, by decide, by decide, by decide, by decide⟩, rfl⟩

/-- C10 (amended): whenever assembly succeeds, the document contains the
salutation paragraph `"Dear "` + client title + `" "` + last name + `":"`,
where the last name is the placeholder `XXX` when the contact is empty and
the last whitespace-separated token of the contact otherwise; a
whitespace-only (but non-empty) contact instead makes assembly raise
`IndexError`, so no salutation is produced for it. -/
theorem claim_C10_salutation (d : FormData) (ln : String) (bs : List Block)
    (hl : lastNameOf d.client_contact = .ok ln)
    (hc : create_proposal_document d = .ok bs) :
    Block.par ("Dear " ++ d.client_title ++ " " ++ ln ++ ":") false false ∈ bs
  ∧ (d.client_contact = "" → ln = "XXX")
  ∧ (∀ ts t, pySplitWs d.client_contact = ts ++ [t] → ln = t) := by
  have hbs : bs = buildBlocks d ln := by
    rw [create_proposal_document, hl] at hc
    simp only [Except.map] at hc
    exact ((Except.ok.injEq _ _).mp hc).symm
  subst hbs
  refine ⟨?_, ?_, ?_⟩
  · rw [buildBlocks]
    refine List.mem_append_left _ (List.mem_append_left _ ?_)
    refine List.mem_append_left _ (List.mem_append_left _ ?_)
    refine List.mem_append_left _ (List.mem_append_left _ ?_)
    rw [introBlocks]
    by_cases h1 : d.address1 = "" <;> by_cases h2 : d.address2 = "" <;>
      simp [addParagraph, blankPar, h1, h2]
  · intro h0
    rw [lastNameOf, if_pos h0] at hl
    exact ((Except.ok.injEq _ _).mp hl).symm
  · intro ts t hts
    by_cases h0 : d.client_contact = ""
    · rw [h0] at hts
      have : pySplitWs "" = [] := rfl
      rw [this] at hts
      exact absurd hts.symm (List.append_ne_nil_of_right_ne_nil ts (by simp))
    · rw [lastNameOf, if_neg h0, hts, List.getLast?_concat] at hl
      exact ((Except.ok.injEq _ _).mp hl).symm

/-- C10 witness: the salutation of the sample form, whose contact
`"John Smith"` has last token `"Smith"`. -/
theorem claim_C10_witness :
    Block.par ("Dear " ++ sampleForm.client_title ++ " " ++ "Smith" ++ ":") false false
        ∈ buildBlocks sampleForm "Smith"
  ∧ (sampleForm.client_contact = "" → "Smith" = "XXX")
  ∧ (∀ ts t, pySplitWs sampleForm.client_contact = ts ++ [t] → "Smith" = t) :=
  claim_C10_salutation sampleForm "Smith" (buildBlocks sampleForm "Smith") rfl rfl

/-- C10 counterexample: for the contact name `"  "` (non-empty, so the
claim prescribes a salutation built from its last token) assembly raises
`IndexError` and no document, hence no salutation line, exists. -/
theorem claim_C10_counterexample :
    whitespaceContactForm2.client_contact ≠ ""
  ∧ create_proposal_document whitespaceContactForm2
      = .error "IndexError: list index out of range" :=
  ⟨by decide, rfl⟩

/-- Inversion for a successful assembly: the last name computation
succeeded and the result is the built block list. -/
theorem create_ok_inv (d : FormData) (bs : List Block)
    (h : create_proposal_document d = .ok bs) :
    ∃ ln, lastNameOf d.client_contact = .ok ln ∧ bs = buildBlocks d ln := by
  cases hl : lastNameOf d.client_contact with
  | ok ln =>
    rw [create_proposal_document, hl] at h
    simp only [Except.map] at h
    exact ⟨ln, rfl, ((Except.ok.injEq _ _).mp h).symm⟩
  | error e =>
    rw [create_proposal_document, hl] at h
    simp only [Except.map] at h
    exact absurd h (by simp)

/-- C5: in every successfully assembled document the task headings of the
scope-of-services narrative are exactly Tasks 110, 120, 130, 140, 150 in
that order, followed by Task 160 exactly when record drawings are included;
the body's tables are the fee table and the signature table; and the first
column of the fee table lists the header, then the task rows in the same
ascending task-code order, then the total row.  The form has no
task-selection order that could influence this: the order is fixed by the
assembler. -/
theorem claim_C5_task_order (d : FormData) (bs : List Block)
    (h : create_proposal_document d = .ok bs) :
    taskHeadings bs
      = ["Task 110 – Schematic Design", "Task 120 – Design Development",
         "Task 130 – Construction Documents", "Task 140 – Bidding and Negotiations",
         "Task 150 – Limited Construction Phase Services"]
        ++ (if d.include_record_drawings then ["Task 160 – Record Drawings"] else [])
  ∧ bodyTables bs = [feeTableRows d, sigRows d]
  ∧ (feeTableRows d).map (fun r => r.headD "")
      = "Task Number and Name"
        :: (["110 Schematic Design Phase", "120 Design Development",
             "130 Construction Documents", "140 Bidding and Negotiations",
             "150 Limited Construction Phase Services"]
            ++ (if d.include_record_drawings then ["160 Record Drawings"] else [])
            ++ ["Total"]) := by
  obtain ⟨ln, -, hbs⟩ := create_ok_inv d bs h
  subst hbs
  refine ⟨taskHeadings_buildBlocks d ln, bodyTables_buildBlocks d ln, ?_⟩
  cases hi : d.include_record_drawings <;> simp [feeTableRows, fee_data, hi]

/-- C5 witness: the heading and fee-table ordering of the sample form's
document. -/
theorem claim_C5_witness :
    taskHeadings (buildBlocks sampleForm "Smith")
      = ["Task 110 – Schematic Design", "Task 120 – Design Development",
         "Task 130 – Construction Documents", "Task 140 – Bidding and Negotiations",
         "Task 150 – Limited Construction Phase Services"]
  ∧ bodyTables (buildBlocks sampleForm "Smith")
      = [feeTableRows sampleForm, sigRows sampleForm]
  ∧ (feeTableRows sampleForm).map (fun r => r.headD "")
      = ["Task Number and Name", "110 Schematic Design Phase", "120 Design Development",
         "130 Construction Documents", "140 Bidding and Negotiations",
         "150 Limited Construction Phase Services", "Total"] :=
  claim_C5_task_order sampleForm (buildBlocks sampleForm "Smith") rfl

/-- C9: for every raw fee-tab input the fee table has 7 rows without the
record-drawings task and 8 with it, every row has exactly 3 cells, the five
base task rows are always present in rows 1-5 with the fee rendered as
`"$"` + the form entry's text, and an empty raw fee renders as the `$XXX`
placeholder (the optional record-drawings fee instead collapses to the
empty string, by `formRecordFee`). -/
theorem claim_C9_fee_table_shape (r : RawFees) (base : FormData) :
    (feeTableRows (applyFormFees r base)).length
        = (if r.include_record_drawings then 8 else 7)
  ∧ (∀ row ∈ feeTableRows (applyFormFees r base), row.length = 3)
  ∧ feeTableRows (applyFormFees r base)
      = (["Task Number and Name", "Fee", "Type"]
          :: ["110 Schematic Design Phase", "$" ++ (formFeeField r.fee_sd).text, "Lump Sum"]
          :: ["120 Design Development", "$" ++ (formFeeField r.fee_dd).text, "Lump Sum"]
          :: ["130 Construction Documents", "$" ++ (formFeeField r.fee_cd).text, "Lump Sum"]
          :: ["140 Bidding and Negotiations", "$" ++ (formFeeField r.fee_bidding).text, "Lump Sum"]
          :: ["150 Limited Construction Phase Services",
              "$" ++ (formFeeField r.fee_construction).text, "Lump Sum"]
          :: (if r.include_record_drawings then
                [["160 Record Drawings",
                  "$" ++ (formRecordFee r.include_record_drawings r.fee_record_drawings).text,
                  "Lump Sum"]]
              else []))
        ++ [["Total", "$" ++ calculate_total (applyFormFees r base), ""]]
  ∧ (r.fee_sd.text = "" → (formFeeField r.fee_sd).text = "XXX")
  ∧ (r.fee_dd.text = "" → (formFeeField r.fee_dd).text = "XXX")
  ∧ (r.fee_cd.text = "" → (formFeeField r.fee_cd).text = "XXX")
  ∧ (r.fee_bidding.text = "" → (formFeeField r.fee_bidding).text = "XXX")
  ∧ (r.fee_construction.text = "" → (formFeeField r.fee_construction).text = "XXX") := by
  refine ⟨?_, feeTableRows_cols _, ?_, ?_, ?_, ?_, ?_, ?_⟩
  · cases hi : r.include_record_drawings <;>
      simp [feeTableRows, fee_data, applyFormFees, hi]
  · cases hi : r.include_record_drawings <;>
      simp [feeTableRows, fee_data, applyFormFees, hi]
  all_goals intro h
  all_goals simp [formFeeField, h]

/-- C9 witness: the fee table of the concrete raw inputs (no record
drawings): 7 rows, 3-cell rows, and the empty Design Development fee
rendering as the placeholder. -/
theorem claim_C9_witness :
    (feeTableRows (applyFormFees rawFeesSample sampleForm)).length = 7
  ∧ (["Task Number and Name", "Fee", "Type"] : List String).length = 3
  ∧ (formFeeField rawFeesSample.fee_dd).text = "XXX" := by
  refine ⟨?_, ?_, ?_⟩
  · exact (claim_C9_fee_table_shape rawFeesSample sampleForm).1
  · exact (claim_C9_fee_table_shape rawFeesSample sampleForm).2.1 _ (List.mem_cons_self _ _)
  · exact (claim_C9_fee_table_shape rawFeesSample sampleForm).2.2.2.2.1 rfl

/-- C8: `calculate_total` never raises (it is total in this model: a parse
failure is swallowed and contributes nothing), and whenever the accumulated
total is zero or negative the total row of the fee table shows the
`$___________` placeholder instead of a formatted number. -/
theorem claim_C8_total_robust (d : FormData) (f : FeeStr) :
    (f.parsed = none → feeContribution f = 0)
  ∧ (totalFee d ≤ 0 →
      (feeTableRows d).getLast? = some ["Total", "$___________", ""]) := by
  refine ⟨feeContribution_of_parsed_none f, ?_⟩
  intro h
  have hct : calculate_total d = "___________" := by
    rw [calculate_total, if_neg (not_lt.mpr h)]
  have h' := feeTableRows_total_row d
  rw [hct] at h'
  exact h'

/-- C8 witness: a form whose six fee entries are all unparseable or empty
accumulates a zero total and shows `$___________` in the total cell. -/
theorem claim_C8_witness :
    feeContribution { text := "abc", parsed := none } = 0
  ∧ (feeTableRows allInvalidFeeForm).getLast? = some ["Total", "$___________", ""] :=
  ⟨(claim_C8_total_robust allInvalidFeeForm { text := "abc", parsed := none }).1 rfl,
   (claim_C8_total_robust allInvalidFeeForm { text := "abc", parsed := none }).2
     (le_of_eq totalFee_allInvalidFeeForm)⟩

/-- C1 (amended): for whole-dollar, non-negative-or-empty fee entries whose
sum is positive, the numeric total is exactly the sum of the six entries
(record drawings counted exactly when included) and the total cell renders
that exact sum with thousands separators after a `$`.  The positivity
condition is forced by the counterexample: a zero sum renders the
`___________` placeholder instead of `0`. -/
theorem claim_C1_total_exact (d : FormData) (z1 z2 z3 z4 z5 z6 : ℤ)
    (h1 : empty_or_currency d.fee_sd z1)
    (h2 : empty_or_currency d.fee_dd z2)
    (h3 : empty_or_currency d.fee_cd z3)
    (h4 : empty_or_currency d.fee_bidding z4)
    (h5 : empty_or_currency d.fee_construction z5)
    (h6 : d.include_record_drawings = true → empty_or_currency d.fee_record_drawings z6)
    (hpos : 0 < z1 + z2 + z3 + z4 + z5
        + (if d.include_record_drawings then z6 else 0)) :
    totalFee d
      = ((z1 + z2 + z3 + z4 + z5
          + (if d.include_record_drawings then z6 else 0) : ℤ) : ℚ)
  ∧ (feeTableRows d).getLast?
      = some ["Total",
              "$" ++ natComma (z1 + z2 + z3 + z4 + z5
                + (if d.include_record_drawings then z6 else 0)).toNat,
              ""]
  ∧ stripDollarComma (calculate_total d)
      = toString (z1 + z2 + z3 + z4 + z5
          + (if d.include_record_drawings then z6 else 0)).toNat := by
  have e1 := feeContribution_spec _ _ h1
  have e2 := feeContribution_spec _ _ h2
  have e3 := feeContribution_spec _ _ h3
  have e4 := feeContribution_spec _ _ h4
  have e5 := feeContribution_spec _ _ h5
  have htot : totalFee d
      = ((z1 + z2 + z3 + z4 + z5
          + (if d.include_record_drawings then z6 else 0) : ℤ) : ℚ) := by
    cases hi : d.include_record_drawings with
    | false =>
      simp [totalFee, calcFeeList, hi, e1, e2, e3, e4, e5]
      ring
    | true =>
      have e6 := feeContribution_spec _ _ (h6 hi)
      simp [totalFee, calcFeeList, hi, e1, e2, e3, e4, e5, e6]
      ring
  refine ⟨htot, ?_⟩
  have hpos' : (0 : ℚ) < totalFee d := by
    rw [htot]
    exact_mod_cast hpos
  have hct : calculate_total d
      = pyFormatComma (z1 + z2 + z3 + z4 + z5
          + (if d.include_record_drawings then z6 else 0)) := by
    rw [calculate_total, if_pos hpos', htot, pyRound_intCast]
  have hfmt : pyFormatComma (z1 + z2 + z3 + z4 + z5
        + (if d.include_record_drawings then z6 else 0))
      = natComma (z1 + z2 + z3 + z4 + z5
        + (if d.include_record_drawings then z6 else 0)).toNat := by
    rw [pyFormatComma, if_neg (not_lt.mpr (le_of_lt hpos))]
    congr 1
    omega
  refine ⟨?_, ?_⟩
  · have h' := feeTableRows_total_row d
    rw [hct, hfmt] at h'
    exact h'
  · rw [hct, hfmt, stripDollarComma_natComma]

/-- C1 witness: the sample form's five whole-dollar fees sum to exactly
185000, the total cell shows `$185,000`, and stripping the separators from
the rendered total recovers the decimal numeral of the exact sum. -/
theorem claim_C1_witness :
    totalFee sampleForm = ((185000 : ℤ) : ℚ)
  ∧ (feeTableRows sampleForm).getLast? = some ["Total", "$185,000", ""]
  ∧ stripDollarComma (calculate_total sampleForm) = "185000" :=
  claim_C1_total_exact sampleForm 25000 45000 85000 5000 25000 0
    (Or.inr ⟨by decide, rfl⟩) (Or.inr ⟨by decide, rfl⟩) (Or.inr ⟨by decide, rfl⟩)
    (Or.inr ⟨by decide, rfl⟩) (Or.inr ⟨by decide, rfl⟩)
    (fun hinc => absurd hinc (by decide)) (by decide)

/-- C1 counterexample: with every base fee the non-negative currency string
`"0"` the exact sum is `0`, but the total cell shows the `$___________`
placeholder rather than a rendering of the sum. -/
theorem claim_C1_counterexample :
    totalFee allZeroFeeForm = 0
  ∧ (feeTableRows allZeroFeeForm).getLast? = some ["Total", "$___________", ""]
  ∧ ("___________" : String) ≠ "0" := by
  refine ⟨totalFee_allZeroFeeForm, ?_, by decide⟩
  have hct : calculate_total allZeroFeeForm = "___________" := by
    simp [calculate_total, totalFee_allZeroFeeForm]
  have h' := feeTableRows_total_row allZeroFeeForm
  rw [hct] at h'
  exact h'

/-- C6 (amended): a parseable fee renders as its rounded integer value with
thousands separators; every fee cell (row 1 shown; rows 2-5 are the same
pattern, see C9) is the literal `"$"` immediately followed by that text —
there is no space after the dollar sign, which corrects the claim's
`"$ "` — and the total sums exactly the included tasks' fees: it ignores
the record-drawings entry when that task is off and adds exactly its
contribution when on. -/
theorem claim_C6_currency_rendering (d : FormData) (s : String) (q : ℚ) (f : FeeStr) :
    (format_currency { text := s, parsed := some q }).text = pyFormatComma (pyRound q)
  ∧ (feeTableRows d)[1]?
      = some ["110 Schematic Design Phase", "$" ++ d.fee_sd.text, "Lump Sum"]
  ∧ totalFee { d with include_record_drawings := false, fee_record_drawings := f }
      = totalFee { d with include_record_drawings := false }
  ∧ totalFee { d with include_record_drawings := true }
      = totalFee { d with include_record_drawings := false }
        + feeContribution d.fee_record_drawings := by
  refine ⟨rfl, rfl, rfl, ?_⟩
  simp [totalFee, calcFeeList]
  ring

/-- C6 counterexample: the rendered fee cell for a 25000 fee is `$25,000` —
`"$"` directly followed by the amount — and the claimed `"$ "` (dollar,
space) is not a prefix of it. -/
theorem claim_C6_counterexample :
    (feeTableRows sampleForm)[1]?
      = some ["110 Schematic Design Phase", "$25,000", "Lump Sum"]
  ∧ "$ ".data.isPrefixOf "$25,000".data = false :=
  ⟨rfl, by decide⟩

